import Mathlib

/-!
Verification of the veggiekarte refresh pipeline (`refresh.py`).

The Python source is shallowly embedded: each function of the source is
translated into an executable Lean definition over explicit data
(tag dictionaries become association lists, JSON numbers become `Rat`,
fallible code returns `Except`, filesystem state is an explicit record,
and `time.sleep` calls are logged as a list of durations).  Theorems then
settle the frozen claims about the specification.
-/

set_option maxRecDepth 4000

/-- A tag dictionary (Python `dict` of string keys and string values),
modelled as an association list; keys are unique in real data and lookup
takes the first binding, matching `dict` semantics. -/
abbrev Tags := List (String × String)

/-- Python `d.get(k)`: first binding for `k`, or `none`. -/
def dict_get (tags : Tags) (k : String) : Option String :=
  match tags with
  | [] => none
  | (k2, v) :: rest => if k2 = k then some v else dict_get rest k

/-- Python `d.get(k, default)`. -/
def dgetD (tags : Tags) (k d : String) : String :=
  (dict_get tags k).getD d

/-- The five diet categories of `write_data` (refresh.py lines 211-226). -/
inductive Category where
  | vegan_only
  | vegetarian_only
  | vegan_friendly
  | vegan_limited
  | vegetarian_friendly
deriving DecidableEq

/-- The category name strings used in the generated artifact. -/
def category_str : Category → String
  | .vegan_only => "vegan_only"
  | .vegetarian_only => "vegetarian_only"
  | .vegan_friendly => "vegan_friendly"
  | .vegan_limited => "vegan_limited"
  | .vegetarian_friendly => "vegetarian_friendly"

/-- The category decision chain of `write_data` (refresh.py lines 211-226),
verbatim from the `if`/`elif` cascade. -/
def categorize (tags : Tags) : Category :=
  if dgetD tags "diet:vegan" "" = "only" then .vegan_only
  else if dgetD tags "diet:vegetarian" "" = "only" ∧ dgetD tags "diet:vegan" "" = "yes" then
    .vegetarian_only
  else if dgetD tags "diet:vegan" "" = "yes" then .vegan_friendly
  else if dgetD tags "diet:vegan" "" = "limited" then .vegan_limited
  else .vegetarian_friendly

/-- ICON_MAPPING from refresh.py lines 40-93, in source order: the
`cuisine:pizza` rule is intentionally listed first, the remainder is
alphabetical.  Each entry is the `"key:value"` rule string paired with
the (marker icon, emoji glyph) assignment. -/
def ICON_MAPPING : List (String × String × String) := [
  ("cuisine:pizza", "maki_restaurant-pizza", "🍕"),
  ("amenity:bar", "bar", "🍸"),
  ("amenity:bbq", "bbq", "🍴"),
  ("amenity:cafe", "cafe", "☕"),
  ("amenity:cinema", "cinema", "🎦"),
  ("amenity:college", "maki_college", "🎓"),
  ("amenity:fast_food", "fast_food", "🍔"),
  ("amenity:food_court", "restaurant", "🍽️"),
  ("amenity:fuel", "fuel", "⛽"),
  ("amenity:hospital", "hospital", "🏥"),
  ("amenity:ice_cream", "ice_cream", "🍨"),
  ("amenity:kindergarten", "playground", "🧒"),
  ("amenity:pharmacy", "pharmacy", "💊"),
  ("amenity:place_of_worship", "place_of_worship", "🛐"),
  ("amenity:pub", "pub", "🍻"),
  ("amenity:restaurant", "restaurant", "🍽️"),
  ("amenity:school", "maki_school", "🏫"),
  ("amenity:shelter", "shelter", "☂️"),
  ("amenity:swimming_pool", "maki_swimming", "🏊‍♀️"),
  ("amenity:theatre", "theatre", "🎭"),
  ("amenity:university", "maki_college", "🎓"),
  ("amenity:vending_machine", "maki_shop", "🛒"),
  ("historic:memorial", "monument", "🗿"),
  ("leisure:golf_course", "golf", "🏌️"),
  ("leisure:pitch", "maki_pitch", "🏃"),
  ("leisure:sports_centre", "sports", "🤼"),
  ("leisure:stadium", "maki_stadium", "🏟️"),
  ("shop:alcohol", "alcohol", "🍷"),
  ("shop:bakery", "bakery", "🥯"),
  ("shop:beauty", "beauty", "💇"),
  ("shop:bicycle", "bicycle", "🚲"),
  ("shop:books", "library", "📚"),
  ("shop:butcher", "butcher", "🔪"),
  ("shop:clothes", "clothes", "👚"),
  ("shop:confectionery", "confectionery", "🍬"),
  ("shop:convenience", "convenience", "🏪"),
  ("shop:department_store", "department_store", "🏬"),
  ("shop:doityourself", "diy", "🛠️"),
  ("shop:fishmonger", "maki_shop", "🐟"),
  ("shop:garden_centre", "garden-centre", "🏡"),
  ("shop:general", "maki_shop", "🛒"),
  ("shop:gift", "gift", "🎁"),
  ("shop:greengrocer", "greengrocer", "🍏"),
  ("shop:hairdresser", "hairdresser", "💇"),
  ("shop:kiosk", "maki_shop", "🛒"),
  ("shop:music", "music", "🎶"),
  ("shop:supermarket", "supermarket", "🏪"),
  ("shop:wine", "alcohol", "🍷"),
  ("tourism:guest_house", "guest_house", "🏠"),
  ("tourism:museum", "museum", "🖼️")]

/-- Python `kv.split(":")` for the two-part rule keys of ICON_MAPPING:
the text before the first colon and the text after it. -/
def split_key (kv : String) : String × String :=
  (String.mk (kv.data.takeWhile (fun c => c ≠ ':')),
   String.mk ((kv.data.dropWhile (fun c => c ≠ ':')).drop 1))

/-- Python `t.split(";")[0]`: the segment of `t` before the first `;`. -/
def before_semicolon (t : String) : String :=
  String.mk (t.data.takeWhile (fun c => c ≠ ';'))

/-- The loop body of `determine_icon` (refresh.py lines 99-110) over a
remaining rule list: a missing or empty tag value (`if not t: continue`)
skips the rule, otherwise the value's segment before the first `;` is
compared with the rule value, and the first match wins (`break`). -/
def icon_go (tags : Tags) : List (String × String × String) → String × String
  | [] => ("maki_star-stroked", "")
  | (kv, ic) :: rest =>
    match dict_get tags (split_key kv).1 with
    | none => icon_go tags rest
    | some t =>
      if t = "" then icon_go tags rest
      else if before_semicolon t = (split_key kv).2 then ic
      else icon_go tags rest

/-- `determine_icon` from refresh.py lines 96-111. -/
def determine_icon (tags : Tags) : String × String :=
  icon_go tags ICON_MAPPING

/-- The claim's matching condition for one icon rule: the attribute key is
present and the value's substring before the first `;` equals the rule's
value.  (The source additionally skips empty tag values, which can never
match since every rule value in the table is non-empty.) -/
def claim_rule_matches (tags : Tags) (kv : String) : Bool :=
  match dict_get tags (split_key kv).1 with
  | some t => decide (before_semicolon t = (split_key kv).2)
  | none => false

/-- Every rule value in a rule list is non-empty (true for ICON_MAPPING). -/
def rule_values_nonempty (rules : List (String × String × String)) : Prop :=
  ∀ r ∈ rules, (split_key r.1).2 ≠ ""

lemma before_semicolon_empty : before_semicolon "" = "" := rfl

/-- Strict lexicographic order on character lists (executable). -/
def lex_lt : List Char → List Char → Bool
  | [], [] => false
  | [], _ :: _ => true
  | _ :: _, [] => false
  | a :: as, b :: bs => if a < b then true else if a = b then lex_lt as bs else false

/-- The rule keys of a rule list are in strictly increasing (alphabetical)
order. -/
def keys_sorted : List (String × String × String) → Bool
  | [] => true
  | [_] => true
  | a :: b :: rest => lex_lt a.1.data b.1.data && keys_sorted (b :: rest)

/-- First-match characterization of the `determine_icon` loop. -/
lemma icon_go_eq_find (tags : Tags) (rules : List (String × String × String))
    (h : rule_values_nonempty rules) :
    icon_go tags rules =
      (match rules.find? (fun r => claim_rule_matches tags r.1) with
       | some r => r.2
       | none => ("maki_star-stroked", "")) := by
  induction rules with
  | nil => rfl
  | cons r rest ih =>
    have hr : (split_key r.1).2 ≠ "" := h r (by simp)
    have hrest : rule_values_nonempty rest := fun q hq => h q (by simp [hq])
    obtain ⟨kv, ic⟩ := r
    simp only [icon_go, List.find?]
    cases hg : dict_get tags (split_key kv).1 with
    | none =>
      have hm : claim_rule_matches tags kv = false := by
        simp [claim_rule_matches, hg]
      simp [hm, ih hrest]
    | some t =>
      by_cases ht : t = ""
      · subst ht
        have hm : claim_rule_matches tags kv = false := by
          simp only [claim_rule_matches, hg, before_semicolon_empty]
          simp [Ne.symm hr]
        simp [hm, ih hrest]
      · by_cases hv : before_semicolon t = (split_key kv).2
        · have hm : claim_rule_matches tags kv = true := by
            simp [claim_rule_matches, hg, hv]
          simp [icon_go, hg, ht, hv, hm]
        · have hm : claim_rule_matches tags kv = false := by
            simp [claim_rule_matches, hg, hv]
          simp [icon_go, hg, ht, hv, hm, ih hrest]

/-- Claim C1: category classification is total, mutually exclusive, and
follows the exact first-match decision order of refresh.py lines 211-226:
`diet:vegan == "only"` gives `vegan_only` regardless of anything else;
otherwise `diet:vegetarian == "only"` with `diet:vegan == "yes"` gives
`vegetarian_only`; otherwise `diet:vegan == "yes"` gives `vegan_friendly`;
otherwise `diet:vegan == "limited"` gives `vegan_limited`; otherwise
`vegetarian_friendly` — and every attribute set yields exactly one of the
five categories. -/
theorem claim_C1_category_order (tags : Tags) :
    (dgetD tags "diet:vegan" "" = "only" → categorize tags = .vegan_only) ∧
    (dgetD tags "diet:vegetarian" "" = "only" → dgetD tags "diet:vegan" "" = "yes" →
      categorize tags = .vegetarian_only) ∧
    (dgetD tags "diet:vegan" "" = "yes" → dgetD tags "diet:vegetarian" "" ≠ "only" →
      categorize tags = .vegan_friendly) ∧
    (dgetD tags "diet:vegan" "" = "limited" → categorize tags = .vegan_limited) ∧
    (dgetD tags "diet:vegan" "" ≠ "only" → dgetD tags "diet:vegan" "" ≠ "yes" →
      dgetD tags "diet:vegan" "" ≠ "limited" → categorize tags = .vegetarian_friendly) ∧
    (categorize tags = .vegan_only ∨ categorize tags = .vegetarian_only ∨
     categorize tags = .vegan_friendly ∨ categorize tags = .vegan_limited ∨
     categorize tags = .vegetarian_friendly) := by
  refine ⟨?_, ?_, ?_, ?_, ?_, ?_⟩
  · intro h; simp [categorize, h]
  · intro h1 h2; simp [categorize, h1, h2]
  · intro h1 h2; simp [categorize, h1, h2]
  · intro h; simp [categorize, h]
  · intro h1 h2 h3; simp [categorize, h1, h2, h3]
  · unfold categorize
    split
    · exact Or.inl rfl
    · split
      · exact Or.inr (Or.inl rfl)
      · split
        · exact Or.inr (Or.inr (Or.inl rfl))
        · split
          · exact Or.inr (Or.inr (Or.inr (Or.inl rfl)))
          · exact Or.inr (Or.inr (Or.inr (Or.inr rfl)))

/-- Witness for C1 at a concrete attribute set. -/
theorem claim_C1_category_order_witness :
    dgetD [("diet:vegan", "only"), ("diet:vegetarian", "yes")] "diet:vegan" "" = "only" ∧
    categorize [("diet:vegan", "only"), ("diet:vegetarian", "yes")] = .vegan_only :=
  ⟨by decide,
   (claim_C1_category_order [("diet:vegan", "only"), ("diet:vegetarian", "yes")]).1 (by decide)⟩

/-- Claim C2: `determine_icon` returns the assignment of the first rule in
the fixed table order (the hand-listed `cuisine:pizza` rule first, then the
alphabetical remainder) whose key is present and whose value's segment
before the first `;` equals the rule value; an attribute set matching both
the pizza rule and the bar rule resolves to the pizza icon; a value such as
`"bar;cafe"` matches the rule expecting `"bar"`; with no matching rule the
default fallback icon with an empty glyph is returned; the function is
total by construction. -/
theorem claim_C2_first_match (tags : Tags) :
    (determine_icon tags =
      (match ICON_MAPPING.find? (fun r => claim_rule_matches tags r.1) with
       | some r => r.2
       | none => ("maki_star-stroked", ""))) ∧
    determine_icon [("cuisine", "pizza"), ("amenity", "bar")] = ("maki_restaurant-pizza", "🍕") ∧
    determine_icon [("amenity", "bar;cafe")] = ("bar", "🍸") ∧
    determine_icon [] = ("maki_star-stroked", "") ∧
    ICON_MAPPING.head? = some ("cuisine:pizza", "maki_restaurant-pizza", "🍕") ∧
    keys_sorted ICON_MAPPING.tail = true := by
  refine ⟨?_, by decide, by decide, by decide, by decide, by decide⟩
  exact icon_go_eq_find tags ICON_MAPPING (by unfold rule_values_nonempty; decide)

/-- The endpoint failover loop `get_data_osm` (refresh.py lines 114-154),
over the sequence of per-endpoint responses (HTTP status paired with the
already-parsed body).  The returned pair is the final `result` (set on the
first status-200 answer, which ends the loop) together with the log of
`time.sleep` durations, in order: 5 after a 400, 60 after a 429, 600 after
a 504, none for any other failing status. -/
def get_data_osm {α : Type} : List (Nat × α) → Option α × List Nat
  | [] => (none, [])
  | (status, body) :: rest =>
    if status = 200 then (some body, [])
    else if status = 400 then
      ((get_data_osm rest).1, 5 :: (get_data_osm rest).2)
    else if status = 429 then
      ((get_data_osm rest).1, 60 :: (get_data_osm rest).2)
    else if status = 504 then
      ((get_data_osm rest).1, 600 :: (get_data_osm rest).2)
    else get_data_osm rest

/-- If no endpoint answers with status 200, the fetch returns `none`. -/
lemma get_data_osm_exhausted {α : Type} (responses : List (Nat × α))
    (h : ∀ r ∈ responses, r.1 ≠ 200) : (get_data_osm responses).1 = none := by
  induction responses with
  | nil => rfl
  | cons r rest ih =>
    obtain ⟨status, body⟩ := r
    have h200 : status ≠ 200 := h (status, body) (by simp)
    have hrest : ∀ q ∈ rest, q.1 ≠ 200 := fun q hq => h q (by simp [hq])
    by_cases h400 : status = 400
    · simp [get_data_osm, h200, h400, ih hrest]
    · by_cases h429 : status = 429
      · simp [get_data_osm, h200, h400, h429, ih hrest]
      · by_cases h504 : status = 504
        · simp [get_data_osm, h200, h400, h429, h504, ih hrest]
        · simp [get_data_osm, h200, h400, h429, h504, ih hrest]

/-- Claim C3: the fetcher walks the endpoint list in order; a status-200
response is parsed and returned immediately with no further endpoints
tried and no pause; 429 sleeps 60 time-units, 504 sleeps 600, 400 sleeps 5
before the next endpoint; any other non-200 status proceeds without
pausing; and when every endpoint fails the fetch returns `none`. -/
theorem claim_C3_fetch_failover {α : Type} (body : α) (rest : List (Nat × α)) :
    (get_data_osm ((200, body) :: rest) = (some body, [])) ∧
    (get_data_osm ((429, body) :: rest) =
      ((get_data_osm rest).1, 60 :: (get_data_osm rest).2)) ∧
    (get_data_osm ((504, body) :: rest) =
      ((get_data_osm rest).1, 600 :: (get_data_osm rest).2)) ∧
    (get_data_osm ((400, body) :: rest) =
      ((get_data_osm rest).1, 5 :: (get_data_osm rest).2)) ∧
    (∀ s : Nat, s ≠ 200 → s ≠ 400 → s ≠ 429 → s ≠ 504 →
      get_data_osm ((s, body) :: rest) = get_data_osm rest) ∧
    (∀ responses : List (Nat × α), (∀ r ∈ responses, r.1 ≠ 200) →
      (get_data_osm responses).1 = none) := by
  refine ⟨by simp [get_data_osm], by simp [get_data_osm], by simp [get_data_osm],
         by simp [get_data_osm], ?_, fun responses h => get_data_osm_exhausted responses h⟩
  intro s h200 h400 h429 h504
  simp [get_data_osm, h200, h400, h429, h504]

/-- Witness for C3: with a single endpoint answering 500, the fetch is
exhausted and returns `none`. -/
theorem claim_C3_fetch_failover_witness :
    (∀ r ∈ [((500 : Nat), (0 : Nat))], r.1 ≠ 200) ∧
    (get_data_osm [((500 : Nat), (0 : Nat))]).1 = none :=
  ⟨by decide, (claim_C3_fetch_failover (0 : Nat) []).2.2.2.2.2 [(500, 0)] (by decide)⟩

/-- Executable prefix test on character lists. -/
def starts_with : List Char → List Char → Bool
  | [], _ => true
  | _ :: _, [] => false
  | p :: ps, c :: cs => decide (p = c) && starts_with ps cs

/-- Python `s.replace(pat, rep)` on character lists (left-to-right,
non-overlapping), written with a skip counter so the recursion is
structural: after a match at the current character the next
`pat.length - 1` characters are consumed by the counter.  The source only
ever calls `str.replace` with a non-empty pattern, so the empty-pattern
behaviour of this definition is irrelevant. -/
def replA (pat rep : List Char) : Nat → List Char → List Char
  | _, [] => []
  | Nat.succ k, _ :: rest => replA pat rep k rest
  | 0, c :: rest =>
    if starts_with pat (c :: rest) then rep ++ replA pat rep (pat.length - 1) rest
    else c :: replA pat rep 0 rest

/-- Python `s.replace(pat, rep)` at the `String` level. -/
def replaceAllS (pat rep s : String) : String :=
  String.mk (replA pat.data rep.data 0 s.data)

/-- Python `html.escape(s, quote=True)`: the five sequential single
character replacements `&` to `&amp;`, `<` to `&lt;`, `>` to `&gt;`,
`"` to `&quot;`, `'` to `&#x27;`, in this order. -/
def html_escape_c (s : List Char) : List Char :=
  replA ['\''] ['&', '#', 'x', '2', '7', ';'] 0
    (replA ['"'] ['&', 'q', 'u', 'o', 't', ';'] 0
      (replA ['>'] ['&', 'g', 't', ';'] 0
        (replA ['<'] ['&', 'l', 't', ';'] 0
          (replA ['&'] ['&', 'a', 'm', 'p', ';'] 0 s))))

/-- Python `html.escape` at the `String` level. -/
def html_escape (s : String) : String :=
  String.mk (html_escape_c s.data)

/-- Python `html.unescape` restricted to the five character references
that `html.escape` produces, which are the only ones that can occur in
this pipeline's escaped strings (every `&` in an escaped string starts one
of them); on such strings this agrees with Python's full
entity-table-driven decoder.  The `Nat` argument is a skip counter
consuming the tail of a recognized reference. -/
def unesc : Nat → List Char → List Char
  | _, [] => []
  | Nat.succ k, _ :: rest => unesc k rest
  | 0, c :: rest =>
    if c = '&' then
      if starts_with ['a', 'm', 'p', ';'] rest then '&' :: unesc 4 rest
      else if starts_with ['l', 't', ';'] rest then '<' :: unesc 3 rest
      else if starts_with ['g', 't', ';'] rest then '>' :: unesc 3 rest
      else if starts_with ['q', 'u', 'o', 't', ';'] rest then '"' :: unesc 5 rest
      else if starts_with ['#', 'x', '2', '7', ';'] rest then '\'' :: unesc 5 rest
      else c :: unesc 0 rest
    else c :: unesc 0 rest

/-- Python `html.unescape` at the `String` level. -/
def html_unescape (s : String) : String :=
  String.mk (unesc 0 s.data)

/-- Single-character replacement acts pointwise. -/
lemma replA_single (p : Char) (rep : List Char) (s : List Char) :
    replA [p] rep 0 s = s.flatMap (fun a => if a = p then rep else [a]) := by
  induction s with
  | nil => rfl
  | cons c rest ih =>
    by_cases h : p = c
    · subst h
      simp [replA, starts_with, ih]
    · simp [replA, starts_with, h, ih, Ne.symm h]

/-- The characters `html.escape` substitutes, as a single pointwise map
(the five sequential replacements never touch each other's output). -/
def escChar (a : Char) : List Char :=
  if a = '&' then ['&', 'a', 'm', 'p', ';']
  else if a = '<' then ['&', 'l', 't', ';']
  else if a = '>' then ['&', 'g', 't', ';']
  else if a = '"' then ['&', 'q', 'u', 'o', 't', ';']
  else if a = '\'' then ['&', '#', 'x', '2', '7', ';']
  else [a]

/-- The five escape layers compose to `escChar` on a single character. -/
lemma esc_chain_char (a : Char) :
    (((((if a = '&' then ['&', 'a', 'm', 'p', ';'] else [a]).flatMap
        (fun b => if b = '<' then ['&', 'l', 't', ';'] else [b])).flatMap
        (fun b => if b = '>' then ['&', 'g', 't', ';'] else [b])).flatMap
        (fun b => if b = '"' then ['&', 'q', 'u', 'o', 't', ';'] else [b])).flatMap
        (fun b => if b = '\'' then ['&', '#', 'x', '2', '7', ';'] else [b])) = escChar a := by
  by_cases h1 : a = '&'
  · subst h1; decide
  · by_cases h2 : a = '<'
    · subst h2; decide
    · by_cases h3 : a = '>'
      · subst h3; decide
      · by_cases h4 : a = '"'
        · subst h4; decide
        · by_cases h5 : a = '\''
          · subst h5; decide
          · simp [escChar, h1, h2, h3, h4, h5]

/-- `html.escape` acts pointwise via `escChar`. -/
lemma html_escape_c_eq_flatMap (s : List Char) :
    html_escape_c s = s.flatMap escChar := by
  induction s with
  | nil => rfl
  | cons a rest ih =>
    have step : html_escape_c (a :: rest) = escChar a ++ html_escape_c rest := by
      simp only [html_escape_c, replA_single, List.flatMap_cons, List.flatMap_append]
      rw [esc_chain_char]
    rw [step, ih, List.flatMap_cons]

/-- Decoding after escaping is the identity: every `&` in an escaped
string starts one of the five produced references, and each decodes back
to its source character. -/
lemma unesc_escape (s : List Char) : unesc 0 (html_escape_c s) = s := by
  induction s with
  | nil => rfl
  | cons a rest ih =>
    rw [html_escape_c_eq_flatMap, List.flatMap_cons, ← html_escape_c_eq_flatMap]
    by_cases h1 : a = '&'
    · subst h1
      show '&' :: unesc 0 (html_escape_c rest) = '&' :: rest
      rw [ih]
    · by_cases h2 : a = '<'
      · subst h2
        show '<' :: unesc 0 (html_escape_c rest) = '<' :: rest
        rw [ih]
      · by_cases h3 : a = '>'
        · subst h3
          show '>' :: unesc 0 (html_escape_c rest) = '>' :: rest
          rw [ih]
        · by_cases h4 : a = '"'
          · subst h4
            show '"' :: unesc 0 (html_escape_c rest) = '"' :: rest
            rw [ih]
          · by_cases h5 : a = '\''
            · subst h5
              show '\'' :: unesc 0 (html_escape_c rest) = '\'' :: rest
              rw [ih]
            · simp only [escChar, h1, h2, h3, h4, h5, if_false, List.singleton_append]
              simp [unesc, h1, ih]

/-- Decoding distributes over an ampersand-free prefix. -/
lemma unesc_append_of_no_amp (g t : List Char) (hg : '&' ∉ g) :
    unesc 0 (g ++ t) = g ++ unesc 0 t := by
  induction g with
  | nil => rfl
  | cons c g ih =>
    have hc : c ≠ '&' := fun h => hg (by simp [h])
    have hg2 : '&' ∉ g := fun h => hg (by simp [h])
    simp [unesc, hc, ih hg2]

/-- The popup name of a record with a `name` tag (refresh.py line 197):
the icon glyph, a space, and the (escaped) name value. -/
def mk_name (glyph nm : String) : String := glyph ++ " " ++ nm

/-- The marker title (refresh.py lines 202-204): the HTML-entity-decoded
name, with every literal double quote replaced by a typographic right
double quotation mark. -/
def mk_title (name : String) : String :=
  replaceAllS "\"" "”" (html_unescape name)

/-- Claim C8: title construction round-trips the escaping — for every name
string, HTML-escaping it and HTML-entity-decoding the glyph-prefixed
result reproduces the original text after the glyph prefix, except that
every literal `"` becomes `”` (the final replacement of refresh.py
line 204). -/
theorem claim_C8_title_roundtrip (raw glyph : String) (hg : '&' ∉ glyph.data) :
    html_unescape (html_escape raw) = raw ∧
    mk_title (mk_name glyph (html_escape raw)) = replaceAllS "\"" "”" (glyph ++ " " ++ raw) := by
  constructor
  · show String.mk (unesc 0 (html_escape_c raw.data)) = raw
    rw [unesc_escape]
  · show String.mk (replA ['"'] ['”'] 0
        (unesc 0 ((glyph ++ " " ++ String.mk (html_escape_c raw.data)).data))) =
      String.mk (replA ['"'] ['”'] 0 ((glyph ++ " " ++ raw).data))
    have hd1 : (glyph ++ " " ++ String.mk (html_escape_c raw.data)).data =
        (glyph.data ++ [' ']) ++ html_escape_c raw.data := by
      simp [String.data_append]
    have hd2 : (glyph ++ " " ++ raw).data = (glyph.data ++ [' ']) ++ raw.data := by
      simp [String.data_append]
    have hga : '&' ∉ glyph.data ++ [' '] := by
      intro h
      rcases List.mem_append.mp h with h | h
      · exact hg h
      · simp at h
    rw [hd1, hd2, unesc_append_of_no_amp _ _ hga, unesc_escape]

/-- Witness for C8 at a concrete glyph and name. -/
theorem claim_C8_title_roundtrip_witness :
    ('&' ∉ "☕".data) ∧
    (html_unescape (html_escape "Joe\"s <Cafe> & Co") = "Joe\"s <Cafe> & Co" ∧
     mk_title (mk_name "☕" (html_escape "Joe\"s <Cafe> & Co")) =
       replaceAllS "\"" "”" ("☕" ++ " " ++ "Joe\"s <Cafe> & Co")) :=
  ⟨by decide, claim_C8_title_roundtrip "Joe\"s <Cafe> & Co" "☕" (by decide)⟩

/-- The website selection of `write_data` (refresh.py lines 251-255):
`contact:website` is preferred over the bare `website` attribute, else the
empty string. -/
def place_website (tags : Tags) : String :=
  match dict_get tags "contact:website" with
  | some v => v
  | none =>
    match dict_get tags "website" with
    | some v => v
    | none => ""

/-- The website display text (refresh.py line 257):
`placeWebsite.replace('https://', '')`. -/
def place_website_without (tags : Tags) : String :=
  replaceAllS "https://" "" (place_website tags)

/-- Follows the claim's words, for comparison with the source: the display
text is the value with only a leading `https://` scheme prefix stripped,
the value otherwise unmodified. -/
def display_text_per_claim (s : String) : String :=
  if starts_with "https://".data s.data then String.mk (s.data.drop 8) else s

/-- Counterexample to claim C9 as stated: on a value containing
`https://` twice, `str.replace` removes every occurrence, not only the
leading prefix, so the display text differs from a leading-prefix strip. -/
theorem claim_C9_counterexample :
    place_website_without [("contact:website", "https://a.example/?to=https://b.example")] ≠
      display_text_per_claim
        (place_website [("contact:website", "https://a.example/?to=https://b.example")]) := by
  decide

/-- Claim C9 as amended: `contact:website` is preferred over `website`
when both exist, the link target is the chosen value unchanged, and the
display text is the value with every occurrence of the substring
`https://` removed (not only a leading prefix). -/
theorem claim_C9_website_preference (tags : Tags) (v w : String)
    (hc : dict_get tags "contact:website" = some v)
    (_hw : dict_get tags "website" = some w) :
    place_website tags = v ∧
    place_website_without tags = replaceAllS "https://" "" v := by
  refine ⟨?_, ?_⟩
  · simp [place_website, hc]
  · simp [place_website_without, place_website, hc]

/-- Witness for C9 (amended) at a concrete attribute set. -/
theorem claim_C9_website_preference_witness :
    dict_get [("contact:website", "https://a.example"), ("website", "http://b.example")]
        "contact:website" = some "https://a.example" ∧
    dict_get [("contact:website", "https://a.example"), ("website", "http://b.example")]
        "website" = some "http://b.example" ∧
    (place_website [("contact:website", "https://a.example"), ("website", "http://b.example")] =
        "https://a.example" ∧
     place_website_without
        [("contact:website", "https://a.example"), ("website", "http://b.example")] =
        replaceAllS "https://" "" "https://a.example") :=
  ⟨by decide, by decide,
   claim_C9_website_preference
     [("contact:website", "https://a.example"), ("website", "http://b.example")]
     "https://a.example" "http://b.example" (by decide) (by decide)⟩

/-- The email selection of `write_data` (refresh.py lines 261-265). -/
def place_email (tags : Tags) : String :=
  match dict_get tags "contact:email" with
  | some v => v
  | none =>
    match dict_get tags "email" with
    | some v => v
    | none => ""

/-- The phone selection of `write_data` (refresh.py lines 270-274). -/
def place_phone (tags : Tags) : String :=
  match dict_get tags "contact:phone" with
  | some v => v
  | none =>
    match dict_get tags "phone" with
    | some v => v
    | none => ""

/-- The `center` object of an area (way) element of the Overpass answer. -/
structure Center where
  lat : Option Rat
  lon : Option Rat
deriving DecidableEq

/-- One element of the Overpass answer: identity, type string, optional
tag mapping (defaulted to empty at access, like `e.get('tags', \x7b\x7d)`),
optional point coordinates and optional area centroid.  JSON numbers are
modelled as `Rat`. -/
structure Element where
  id : Int
  type : String
  tags : Tags
  lat : Option Rat
  lon : Option Rat
  center : Option Center
deriving DecidableEq

/-- The five marker counters of `write_data` (refresh.py lines 160-164). -/
structure Counts where
  n_vegan_only : Nat
  n_vegetarian_only : Nat
  n_vegan_friendly : Nat
  n_vegan_limited : Nat
  n_vegetarian_friendly : Nat
deriving DecidableEq

/-- All counters start at zero. -/
def counts0 : Counts := ⟨0, 0, 0, 0, 0⟩

/-- The counter increment performed in the branch of the category chain
that assigned the category (refresh.py lines 211-226). -/
def bump (c : Counts) : Category → Counts
  | .vegan_only => { c with n_vegan_only := c.n_vegan_only + 1 }
  | .vegetarian_only => { c with n_vegetarian_only := c.n_vegetarian_only + 1 }
  | .vegan_friendly => { c with n_vegan_friendly := c.n_vegan_friendly + 1 }
  | .vegan_limited => { c with n_vegan_limited := c.n_vegan_limited + 1 }
  | .vegetarian_friendly => { c with n_vegetarian_friendly := c.n_vegetarian_friendly + 1 }

/-- The arguments of one emitted `L.marker(...)` statement
(refresh.py line 287), kept structured; the decimal rendering of the
coordinates is abstracted by `Rat`. -/
structure Marker where
  lat : Rat
  lon : Rat
  title : String
  icon0 : String
  category : Category
  popup : String
deriving DecidableEq

/-- The loop state of `write_data`: the current values of the Python
variables `lat`/`lon` (which persist across iterations and are unbound
before the first node or way element — `none` here), the counters, and
the markers written so far. -/
structure WState where
  coords : Option (Option Rat × Option Rat)
  counts : Counts
  markers : List Marker
deriving DecidableEq

/-- Python falsiness of a coordinate value: absent (`None`) or zero. -/
def falsyOpt : Option Rat → Bool
  | none => true
  | some q => decide (q = 0)

/-- The tag-escaping loop of `write_data` (refresh.py lines 175-178):
every tag value is HTML-escaped in place. -/
def escape_tags (tags : Tags) : Tags :=
  tags.map (fun kv => (kv.1, html_escape kv.2))

/-- The popup markup of one marker (refresh.py lines 229-285), built from
the escaped tags: header with name and record link, then optional
cuisine, address, website, email, phone and opening-hours sections. -/
def build_popup (tags : Tags) (name typ : String) (ide : Int) : String :=
  let popup0 := "<b>" ++ name ++ "</b> <a href=\\\"https://openstreetmap.org/" ++ typ ++ "/"
    ++ toString ide ++ "\\\" target=\\\"_blank\\\">*</a><hr/>"
  let popup1 :=
    match dict_get tags "cuisine" with
    | some c =>
      popup0 ++ "<div class=\\\"popupflex-container\\\"><div>👩‍🍳</div><div>" ++ c ++ "</div></div>"
    | none => popup0
  let addr1 :=
    if (dict_get tags "addr:street").isSome then
      dgetD tags "addr:street" "" ++ " " ++ dgetD tags "addr:housenumber" ""
    else ""
  let addr2 :=
    if (dict_get tags "addr:city").isSome then
      (if addr1 ≠ "" then addr1 ++ "<br/>" else addr1) ++ dgetD tags "addr:city" ""
    else addr1
  let addr3 :=
    if (dict_get tags "addr:country").isSome then
      (if addr2 ≠ "" then addr2 ++ "<br/>" else addr2) ++ dgetD tags "addr:country" ""
    else addr2
  let popup2 :=
    if addr3 ≠ "" then
      popup1 ++ "<div class=\\\"popupflex-container\\\"><div>📍</div><div>" ++ addr3 ++ "</div></div>"
    else popup1
  let popup3 :=
    if place_website tags ≠ "" then
      popup2 ++ "<div class=\\\"popupflex-container\\\"><div>🌐</div><div><a href=\\\""
        ++ place_website tags ++ "\\\" target=\\\"_blank\\\">" ++ place_website_without tags
        ++ "</a></div></div>"
    else popup2
  let popup4 :=
    if place_email tags ≠ "" then
      popup3 ++ "<div class=\\\"popupflex-container\\\"><div>📧</div><div><a href=\\\"mailto:"
        ++ place_email tags ++ "\\\" target=\\\"_blank\\\">" ++ place_email tags
        ++ "</a><br/></div></div>"
    else popup3
  let popup5 :=
    if place_phone tags ≠ "" then
      popup4 ++ "<div class=\\\"popupflex-container\\\"><div>☎️</div><div><a href=\\\"tel:"
        ++ place_phone tags ++ "\\\" target=\\\"_blank\\\">" ++ place_phone tags
        ++ "</a><br/></div></div>"
    else popup4
  match dict_get tags "opening_hours" with
  | some oh =>
    let oh2 := replaceAllS "; " "<br/>" (replaceAllS "\r" "" (replaceAllS "\n" "" oh))
    popup5 ++ "<div class=\\\"popupflex-container\\\"><div>🕖</div><div>" ++ oh2 ++ "</div></div>"
  | none => popup5

/-- The marker record written by `f.write` (refresh.py lines 192-287) for
a non-skipped element, from its escaped tags, type, id and coordinates. -/
def emit_marker (tags : Tags) (typ : String) (ide : Int) (lat lon : Rat) : Marker :=
  let icon := determine_icon tags
  let nt :=
    match dict_get tags "name" with
    | some nm =>
      let n := mk_name icon.2 nm
      (n, mk_title n)
    | none =>
      let n := icon.2 ++ " " ++ typ ++ " " ++ toString ide
      (n, n)
  { lat := lat, lon := lon, title := nt.2, icon0 := icon.1,
    category := categorize tags, popup := build_popup tags nt.1 typ ide }

/-- One iteration of the `write_data` loop (refresh.py lines 170-287):
escape the tags; resolve coordinates (node from `lat`/`lon`, way from the
`center` object — crashing with an AttributeError when it is `None`, any
other type silently keeping the previous iteration's values and crashing
with a NameError when none were ever assigned); skip on a falsy
coordinate; otherwise classify, count and emit the marker. -/
def process_element (st : WState) (e : Element) : Except String WState :=
  let tags := escape_tags e.tags
  let coordsR : Except String (Option Rat × Option Rat) :=
    if e.type = "node" then .ok (e.lat, e.lon)
    else if e.type = "way" then
      match e.center with
      | none => .error "AttributeError: NoneType object has no attribute get"
      | some c => .ok (c.lat, c.lon)
    else
      match st.coords with
      | some p => .ok p
      | none => .error "NameError: name lat is not defined"
  match coordsR with
  | .error msg => .error msg
  | .ok p =>
    if falsyOpt p.1 || falsyOpt p.2 then .ok { st with coords := some p }
    else
      .ok { coords := some p,
            counts := bump st.counts (categorize tags),
            markers := st.markers ++
              [emit_marker tags e.type e.id (p.1.getD 0) (p.2.getD 0)] }

/-- The `for e in data['elements']` loop of `write_data`. -/
def write_data_loop : WState → List Element → Except String WState
  | st, [] => .ok st
  | st, e :: rest =>
    match process_element st e with
    | .error m => .error m
    | .ok st2 => write_data_loop st2 rest

/-- `write_data` (refresh.py lines 157-290) restricted to its observable
output: the emitted marker statements in order and the final counters. -/
def write_data_elements (elements : List Element) : Except String (List Marker × Counts) :=
  match write_data_loop ⟨none, counts0, []⟩ elements with
  | .error m => .error m
  | .ok st => .ok (st.markers, st.counts)

/-- Claim C6: a point-kind (node) record whose latitude or longitude is
absent, zero, or otherwise falsy is skipped entirely — no marker is
emitted for it and no category counter is incremented (the loop variables
`lat`/`lon` are still rebound to its values). -/
theorem claim_C6_falsy_node_skipped (st : WState) (e : Element)
    (htype : e.type = "node") (hfalsy : (falsyOpt e.lat || falsyOpt e.lon) = true) :
    process_element st e =
      .ok { coords := some (e.lat, e.lon), counts := st.counts, markers := st.markers } := by
  simp [process_element, htype, hfalsy]

/-- A node element with a zero latitude (falsy in Python). -/
def node_zero_lat : Element :=
  { id := 1, type := "node", tags := [("diet:vegan", "only")],
    lat := some 0, lon := some 13, center := none }

/-- The initial loop state of `write_data`. -/
def wstate0 : WState := ⟨none, counts0, []⟩

/-- Witness for C6 at a concrete node with latitude zero. -/
theorem claim_C6_falsy_node_skipped_witness :
    node_zero_lat.type = "node" ∧
    (falsyOpt node_zero_lat.lat || falsyOpt node_zero_lat.lon) = true ∧
    process_element wstate0 node_zero_lat =
      .ok { coords := some (node_zero_lat.lat, node_zero_lat.lon), counts := wstate0.counts,
            markers := wstate0.markers } :=
  ⟨rfl, by decide, claim_C6_falsy_node_skipped wstate0 node_zero_lat rfl (by decide)⟩

/-- A way element carrying no `center` object. -/
def way_no_center : Element :=
  { id := 7, type := "way", tags := [("diet:vegan", "only")],
    lat := none, lon := none, center := none }

/-- Claim C7 is contradicted by the code: an area-kind (way) record with
no `center` object is not skipped like a missing-coordinate record —
`center_coordinates.get('lat', None)` dereferences `None`
(refresh.py line 186) and the whole run crashes with an AttributeError. -/
theorem claim_C7_way_without_center_crashes :
    write_data_elements [way_no_center] =
      .error "AttributeError: NoneType object has no attribute get" := rfl

/-- An element whose type is neither `node` nor `way`. -/
def relation_elem : Element :=
  { id := 2, type := "relation", tags := [("diet:vegan", "yes"), ("name", "Club")],
    lat := none, lon := none, center := none }

/-- Counterexample to claim C10 as stated: a relation element preceded by
a node element is nevertheless skipped (no marker emitted) when the
coordinates carried over from that node are falsy, so such an element is
not unconditionally emitted. -/
theorem claim_C10_counterexample :
    write_data_elements [node_zero_lat, relation_elem] = .ok ([], counts0) := rfl

/-- Claim C10 as amended: an element whose type is neither `node` nor
`way` is not skipped by the type dispatch — it is processed with the
latitude/longitude resolved for the most recent preceding node or way
element: with no such element the run fails with an unbound-variable
error; with carried falsy coordinates it is skipped by the coordinate
check; with carried truthy coordinates its marker is emitted at exactly
those carried coordinates. -/
theorem claim_C10_foreign_type (st : WState) (e : Element)
    (h1 : e.type ≠ "node") (h2 : e.type ≠ "way") :
    (st.coords = none →
      process_element st e = .error "NameError: name lat is not defined") ∧
    (∀ p : Option Rat × Option Rat, st.coords = some p →
      (falsyOpt p.1 || falsyOpt p.2) = true →
      process_element st e =
        .ok { coords := some p, counts := st.counts, markers := st.markers }) ∧
    (∀ p : Option Rat × Option Rat, st.coords = some p →
      (falsyOpt p.1 || falsyOpt p.2) = false →
      ∃ m : Marker, process_element st e =
          .ok { coords := some p, counts := bump st.counts (categorize (escape_tags e.tags)),
                markers := st.markers ++ [m] } ∧
        m.lat = p.1.getD 0 ∧ m.lon = p.2.getD 0) := by
  refine ⟨?_, ?_, ?_⟩
  · intro hc
    simp [process_element, h1, h2, hc]
  · intro p hc hf
    simp [process_element, h1, h2, hc, hf]
  · intro p hc hf
    refine ⟨emit_marker (escape_tags e.tags) e.type e.id (p.1.getD 0) (p.2.getD 0), ?_, rfl, rfl⟩
    simp [process_element, h1, h2, hc, hf]

/-- Witness for C10 (amended) at a concrete relation preceded by truthy
carried coordinates. -/
theorem claim_C10_foreign_type_witness :
    relation_elem.type ≠ "node" ∧ relation_elem.type ≠ "way" ∧
    (∃ m : Marker,
      process_element ⟨some (some 1, some 2), counts0, []⟩ relation_elem =
        .ok { coords := some (some 1, some 2),
              counts := bump counts0 (categorize (escape_tags relation_elem.tags)),
              markers := [] ++ [m] } ∧
      m.lat = (some (1 : Rat)).getD 0 ∧ m.lon = (some (2 : Rat)).getD 0) :=
  ⟨by decide, by decide,
   (claim_C10_foreign_type ⟨some (some 1, some 2), counts0, []⟩ relation_elem
     (by decide) (by decide)).2.2 (some 1, some 2) rfl (by decide)⟩

/-- The run timestamp (`datetime.datetime.now()` at module load,
refresh.py line 32).  Its concrete value is irrelevant to every claim and
is fixed here. -/
def TIMESTAMP : String := "2026-10-12 00:00:00"

/-- The serialized `L.marker(...)` statement for one marker
(refresh.py line 287); the decimal rendering of the `Rat` coordinates
abstracts Python's float formatting. -/
def render_marker (m : Marker) : String :=
  "L.marker([" ++ toString m.lat ++ "," ++ toString m.lon ++ "],\x7btitle:\"" ++ m.title
    ++ "\",icon:getIcon(\"" ++ m.icon0 ++ "\",\"" ++ category_str m.category
    ++ "\")\x7d).bindPopup(\"" ++ m.popup ++ "\").addTo(" ++ category_str m.category ++ ");\n"

/-- The full text written to the temp file by `write_data`
(refresh.py lines 166-290): timestamp comment, function header, one
marker statement per element, closing brace, and the counter object. -/
def render_artifact (markers : List Marker) (c : Counts) : String :=
  "// Created: " ++ TIMESTAMP ++ "\n"
    ++ "function veggiemap_populate(markers) \x7b\n"
    ++ String.join (markers.map render_marker)
    ++ "\x7d\n"
    ++ "let numbers = \x7b\n n_vegan_only:" ++ toString c.n_vegan_only
    ++ ",\n n_vegetarian_only:" ++ toString c.n_vegetarian_only
    ++ ",\n n_vegan_friendly:" ++ toString c.n_vegan_friendly
    ++ ",\n n_vegan_limited:" ++ toString c.n_vegan_limited
    ++ ",\n n_vegetarian_friendly:" ++ toString c.n_vegetarian_friendly
    ++ "\n\x7d;\n"

/-- The three artifact files (refresh.py lines 34-36): the temp file, the
active data file and the previous-version file, each `none` when absent
and otherwise holding the file's text. -/
structure FS where
  temp : Option String
  active : Option String
  old : Option String
deriving DecidableEq

/-- The observable file operations of one run. -/
inductive FileOp where
  | writeTemp
  | renameActiveToOld
  | renameTempToActive
deriving DecidableEq

/-- `write_data`'s effect on the filesystem: the rendered artifact is
written to the temp file; a crash inside the loop propagates. -/
def write_data_fs (elements : List Element) (fs : FS) : Except String FS :=
  match write_data_elements elements with
  | .error m => .error m
  | .ok (markers, counts) => .ok { fs with temp := some (render_artifact markers counts) }

/-- `check_data` (refresh.py lines 293-305): if the temp file exists and
its byte size exceeds 250, the active file is renamed over the previous
file (`os.rename` fails when the active file is absent) and the temp file
is renamed over the active file; otherwise nothing happens. -/
def check_data (fs : FS) : Except String (FS × List FileOp) :=
  match fs.temp with
  | some content =>
    if content.utf8ByteSize > 250 then
      match fs.active with
      | some a =>
        .ok ({ temp := none, active := some content, old := some a },
             [.renameActiveToOld, .renameTempToActive])
      | none => .error "FileNotFoundError"
    else .ok (fs, [])
  | none => .ok (fs, [])

/-- `main` (refresh.py lines 308-318) over the per-endpoint responses and
the initial filesystem: fetch, and only on a non-`None` result write the
temp artifact and run `check_data`; otherwise only log. -/
def main_run (responses : List (Nat × List Element)) (fs : FS) :
    Except String (FS × List FileOp) :=
  match (get_data_osm responses).1 with
  | none => .ok (fs, [])
  | some d =>
    match write_data_fs d fs with
    | .error m => .error m
    | .ok fs1 =>
      match check_data fs1 with
      | .error m => .error m
      | .ok (fs2, ops) => .ok (fs2, FileOp.writeTemp :: ops)

/-- Claim C4: when every endpoint fails (fetch returns the failure
signal), the run writes no artifact and performs no file operation —
`write_data` and `check_data` are never reached and all three artifact
files are left exactly as they were. -/
theorem claim_C4_fetch_failure_no_write (responses : List (Nat × List Element)) (fs : FS)
    (h : ∀ r ∈ responses, r.1 ≠ 200) :
    main_run responses fs = .ok (fs, []) := by
  have hn := get_data_osm_exhausted responses h
  simp [main_run, hn]

/-- Witness for C4: one endpoint answering 429, arbitrary concrete files. -/
theorem claim_C4_fetch_failure_no_write_witness :
    (∀ r ∈ [((429 : Nat), ([] : List Element))], r.1 ≠ 200) ∧
    main_run [((429 : Nat), ([] : List Element))] ⟨none, some "active", some "old"⟩ =
      .ok (⟨none, some "active", some "old"⟩, []) :=
  ⟨by decide,
   claim_C4_fetch_failure_no_write [(429, [])] ⟨none, some "active", some "old"⟩ (by decide)⟩

/-- Claim C5: promotion is conditional on the temp artifact's size — when
the temp file is missing or its byte size does not exceed 250 no rename
happens and the filesystem (in particular the active artifact) is
unchanged with the temp file left in place; when the size exceeds 250 and
the active file exists, the active file is renamed to the previous path
(overwriting any older previous) and the temp file is renamed to the
active path. -/
theorem claim_C5_rotation (fs : FS) :
    (fs.temp = none → check_data fs = .ok (fs, [])) ∧
    (∀ c : String, fs.temp = some c → c.utf8ByteSize ≤ 250 →
      check_data fs = .ok (fs, [])) ∧
    (∀ c a : String, fs.temp = some c → fs.active = some a → 250 < c.utf8ByteSize →
      check_data fs =
        .ok ({ temp := none, active := some c, old := some a },
             [.renameActiveToOld, .renameTempToActive])) := by
  refine ⟨?_, ?_, ?_⟩
  · intro hc
    simp [check_data, hc]
  · intro c hc hle
    have hngt : ¬ (250 < c.utf8ByteSize) := by omega
    simp [check_data, hc, hngt]
  · intro c a hc ha hgt
    simp [check_data, hc, ha, hgt]

/-- Witness for C5: a small temp artifact next to concrete active and
previous files leaves everything untouched. -/
theorem claim_C5_rotation_witness :
    (⟨some "x", some "active", some "old"⟩ : FS).temp = some "x" ∧
    "x".utf8ByteSize ≤ 250 ∧
    check_data ⟨some "x", some "active", some "old"⟩ =
      .ok (⟨some "x", some "active", some "old"⟩, []) :=
  ⟨rfl, by decide,
   (claim_C5_rotation ⟨some "x", some "active", some "old"⟩).2.1 "x" rfl (by decide)⟩
